import Mathlib

/-!
Verification of the aws-ebs-csi-driver specification claims.

The development shallowly embeds the driver components the claims talk
about: the In-Flight Guard, the Controller service volume operations, the
Node service mount state machine, and the generated gomock metadata mocks
(`pkg/cloud/mock_metadata.go`). State is explicit; mutating Go methods
become functions from state to state.
-/

namespace InFlightGuard

/-- Modelled from the spec: the In-Flight Guard key table
(spec section 4.1; the guard implementation itself is not among the
provided source files, only its contract).  The state is the set of
currently held keys; the Go implementation is a mutex-guarded
`map[string]struct{}`, embedded here as a duplicate-free list of keys. -/
abbrev GuardState := List String

/-- A key is currently held when it is present in the table. -/
def held (s : GuardState) (key : String) : Bool :=
  s.contains key

/-- Modelled from the spec: `Acquire(key) -> (held: bool)` is non-blocking:
if the key is already present it returns `false` immediately and leaves the
table unchanged; otherwise it inserts the key and returns `true`. -/
def Acquire (s : GuardState) (key : String) : GuardState × Bool :=
  if s.contains key then (s, false) else (key :: s, true)

/-- Modelled from the spec: `Release(key)` removes the key from the table;
it is safe to call even if the key was never held (a no-op then). -/
def Release (s : GuardState) (key : String) : GuardState :=
  s.filter (fun k => !(k == key))

/-- Outcome of the RPC body guarded by an in-flight key. -/
inductive Outcome
  | success
  | failure
  | cancelled
deriving DecidableEq, Repr

/-- gRPC-level result of a guarded RPC. -/
inductive RPCResult
  | ok
  | err
  | cancelled
  | aborted
deriving DecidableEq, Repr

/-- Modelled from the spec: a guarded RPC handler.  Admission acquires the
in-flight key; if the key is already held the RPC is rejected (ABORTED,
the "operation already in progress" conflict).  Otherwise the body runs to
its outcome and the key is released unconditionally on completion
(success, failure or cancellation), the guaranteed-release discipline. -/
def runRPC (s : GuardState) (key : String) (o : Outcome) : GuardState × RPCResult :=
  match Acquire s key with
  | (s0, false) => (s0, .aborted)
  | (s1, true) =>
      let res : RPCResult :=
        match o with
        | .success => .ok
        | .failure => .err
        | .cancelled => .cancelled
      (Release s1 key, res)

lemma release_not_held (s : GuardState) (key : String) :
    held (Release s key) key = false := by
  simp [held, Release, List.mem_filter]

end InFlightGuard

namespace InFlightGuard

/-- C1: In-Flight Guard mutual exclusion.  For every key and state:
if an `Acquire` succeeds, a second `Acquire` on the same key against the
resulting state fails (so of two Acquires with no intervening Release at
most one returns `held = true`), and after a `Release` of the key a
subsequent `Acquire` succeeds. -/
theorem acquire_mutual_exclusion (s : GuardState) (key : String) :
    ((Acquire s key).2 = true → (Acquire (Acquire s key).1 key).2 = false) ∧
    (Acquire (Release s key) key).2 = true := by
  constructor
  · intro h
    by_cases hc : key ∈ s
    · simp [Acquire, hc] at h
    · simp [Acquire, hc]
  · simp [Acquire, Release, List.mem_filter]

/-- Witness for C1 at a concrete key and empty table: the first Acquire
succeeds, the second fails, and after Release an Acquire succeeds. -/
theorem acquire_mutual_exclusion_witness :
    (Acquire (Acquire [] "CreateVolume:vol-1").1 "CreateVolume:vol-1").2 = false ∧
    (Acquire (Release [] "CreateVolume:vol-1") "CreateVolume:vol-1").2 = true :=
  ⟨(acquire_mutual_exclusion [] "CreateVolume:vol-1").1 (by decide),
   (acquire_mutual_exclusion [] "CreateVolume:vol-1").2⟩

/-- C8: `Release` is idempotent and total: releasing twice in a row yields
the same state as releasing once, and releasing a key that is not held
leaves the table unchanged. -/
theorem release_idempotent_total (s : GuardState) (key : String) :
    Release (Release s key) key = Release s key ∧
    (held s key = false → Release s key = s) := by
  constructor
  · simp [Release, List.filter_filter]
  · intro h
    simp only [held] at h
    have hmem : key ∉ s := by simpa using h
    apply List.filter_eq_self.mpr
    intro a ha
    have hne : a ≠ key := fun hEq => hmem (hEq ▸ ha)
    simp [hne]

/-- Witness for C8 on a table that never held the key: double release
equals single release and releasing the unheld key is a no-op. -/
theorem release_idempotent_total_witness :
    Release (Release ["other"] "k") "k" = Release ["other"] "k" ∧
    Release ["other"] "k" = ["other"] :=
  ⟨(release_idempotent_total ["other"] "k").1,
   (release_idempotent_total ["other"] "k").2 (by decide)⟩

/-- C6: in-flight entries are always released.  A guarded RPC leaves the
held-status of its key exactly as it found it, for every outcome (success,
failure or cancellation): the entry created at admission never outlives
the RPC, and a rejected admission changes nothing. -/
theorem runRPC_releases_key (s : GuardState) (key : String) (o : Outcome) :
    held (runRPC s key o).1 key = held s key := by
  by_cases hc : key ∈ s
  · simp [runRPC, Acquire, hc, held]
  · simp [runRPC, Acquire, hc, held, Release, List.mem_filter]

end InFlightGuard

namespace ControllerService

/-- A CSI error class as classified by the Cloud Adapter taxonomy. -/
inductive CSIError
  | alreadyExists
  | aborted
  | notFound
  | internalErr
deriving DecidableEq, Repr

/-- A provider volume: provider-assigned identity, the CSI name used as the
idempotency key, the size in bytes and the creation parameters. -/
structure Volume where
  volId : Nat
  name : String
  size : Nat
  params : List (String × String)
deriving DecidableEq, Repr

/-- Modelled from the spec: the cloud provider resource state seen through
the Cloud Adapter (the Controller service source is not among the provided
files).  `createCalls` counts the underlying provider create calls issued;
`nextId` models provider ID assignment. -/
structure ProviderState where
  volumes : List Volume
  nextId : Nat
  createCalls : Nat
deriving DecidableEq, Repr

/-- Modelled from the spec: `CreateVolume` is idempotent on the
(name, size, parameters) triple.  It describes current provider state
first: if a volume with the requested name exists with matching size and
parameters it is returned without a provider create call; a mismatch is an
ALREADY_EXISTS conflict with no provider mutation; otherwise one provider
create call is issued. -/
def CreateVolume (st : ProviderState) (name : String) (size : Nat)
    (params : List (String × String)) : ProviderState × Except CSIError Nat :=
  match st.volumes.find? (fun v => v.name == name) with
  | some v =>
      if v.size = size ∧ v.params = params then (st, .ok v.volId)
      else (st, .error .alreadyExists)
  | none =>
      let v : Volume := ⟨st.nextId, name, size, params⟩
      ({ volumes := v :: st.volumes
         nextId := st.nextId + 1
         createCalls := st.createCalls + 1 }, .ok v.volId)

/-- Modelled from the spec: `DeleteVolume` is idempotent; a volume that is
already absent is success (the not-found condition on the delete path is
absorbed as success). -/
def DeleteVolume (st : ProviderState) (volId : Nat) :
    ProviderState × Except CSIError Unit :=
  if st.volumes.any (fun v => v.volId == volId) then
    ({ st with volumes := st.volumes.filter (fun v => !(v.volId == volId)) }, .ok ())
  else (st, .ok ())

end ControllerService

namespace ControllerService

/-- C2: CreateVolume is idempotent.  Two calls with an identical
(name, size, parameters) triple return the same result (in particular the
same volume ID when they succeed) and issue at most one underlying
provider create call across the two calls. -/
theorem createVolume_idempotent (st : ProviderState) (name : String)
    (size : Nat) (params : List (String × String)) :
    (CreateVolume (CreateVolume st name size params).1 name size params).2 =
      (CreateVolume st name size params).2 ∧
    (CreateVolume (CreateVolume st name size params).1 name size params).1.createCalls ≤
      st.createCalls + 1 := by
  cases hf : st.volumes.find? (fun v => v.name == name) with
  | some v =>
      by_cases hm : v.size = size ∧ v.params = params
      · simp [CreateVolume, hf, hm]
      · simp [CreateVolume, hf, hm]
  | none =>
      have hname : ((⟨st.nextId, name, size, params⟩ : Volume).name == name) = true := by
        simp
      simp [CreateVolume, hf, List.find?, hname]

/-- C4: DeleteVolume on an absent volume succeeds.  If no volume in the
provider state has the requested ID, `DeleteVolume` returns success and
leaves the state unchanged. -/
theorem deleteVolume_absent_succeeds (st : ProviderState) (volId : Nat)
    (h : ∀ v ∈ st.volumes, v.volId ≠ volId) :
    DeleteVolume st volId = (st, .ok ()) := by
  have hany : st.volumes.any (fun v => v.volId == volId) = false := by
    simp only [List.any_eq_false]
    intro v hv
    simp [h v hv]
  simp [DeleteVolume, hany]

/-- Witness for C4: deleting ID 7 from a state holding only volume 1. -/
theorem deleteVolume_absent_succeeds_witness :
    DeleteVolume ⟨[⟨1, "vol-a", 100, []⟩], 2, 1⟩ 7 =
      (⟨[⟨1, "vol-a", 100, []⟩], 2, 1⟩, .ok ()) :=
  deleteVolume_absent_succeeds ⟨[⟨1, "vol-a", 100, []⟩], 2, 1⟩ 7 (by decide)

/-- C5: CreateVolume parameter-mismatch atomicity.  If a volume with the
requested name exists but its size differs, `CreateVolume` fails with an
ALREADY_EXISTS conflict and performs no provider mutation (the state is
returned unchanged). -/
theorem createVolume_mismatch_conflict (st : ProviderState) (name : String)
    (size : Nat) (params : List (String × String)) (v : Volume)
    (hf : st.volumes.find? (fun w => w.name == name) = some v)
    (hsz : v.size ≠ size) :
    CreateVolume st name size params = (st, .error .alreadyExists) := by
  have hm : ¬(v.size = size ∧ v.params = params) := fun hc => hsz hc.1
  simp [CreateVolume, hf, hm]

/-- Witness for C5: an existing 100-byte volume named vol-a, re-created
with size 200. -/
theorem createVolume_mismatch_conflict_witness :
    CreateVolume ⟨[⟨1, "vol-a", 100, []⟩], 2, 1⟩ "vol-a" 200 [] =
      (⟨[⟨1, "vol-a", 100, []⟩], 2, 1⟩, .error .alreadyExists) :=
  createVolume_mismatch_conflict ⟨[⟨1, "vol-a", 100, []⟩], 2, 1⟩ "vol-a" 200 []
    ⟨1, "vol-a", 100, []⟩ (by decide) (by decide)

end ControllerService

namespace NodeService

open ControllerService (CSIError)

/-- A staging mount record on the host: which device is mounted where and
with which filesystem. -/
structure MountEntry where
  device : String
  path : String
  fsType : String
deriving DecidableEq, Repr

/-- Modelled from the spec: the per-host mount state owned by the Node
service (the Node service source is not among the provided files).
`deviceFs` records the filesystem present on each formatted device;
`mounts` are the staging mounts; `publishes` are the bind mounts as
(staging path, target path) pairs; `formatCalls` counts invocations of the
host format operation. -/
structure NodeState where
  deviceFs : List (String × String)
  mounts : List MountEntry
  publishes : List (String × String)
  formatCalls : Nat
deriving DecidableEq, Repr

/-- Modelled from the spec: `NodeStageVolume` is idempotent and never
reformats.  If the staging path already has the correct device mounted
with the correct filesystem it succeeds as a no-op; if it is mounted with
a different device or filesystem it fails with a conflict.  Otherwise the
device is formatted only when it provably carries no filesystem yet (a
device carrying a different filesystem is a conflict, never reformatted)
and then mounted at the staging path. -/
def NodeStageVolume (st : NodeState) (device path fsType : String) :
    NodeState × Except CSIError Unit :=
  match st.mounts.find? (fun m => m.path == path) with
  | some m =>
      if m.device = device ∧ m.fsType = fsType then (st, .ok ())
      else (st, .error .aborted)
  | none =>
      match st.deviceFs.find? (fun d => d.1 == device) with
      | some d =>
          if d.2 = fsType then
            ({ st with mounts := ⟨device, path, fsType⟩ :: st.mounts }, .ok ())
          else (st, .error .aborted)
      | none =>
          ({ st with
             deviceFs := (device, fsType) :: st.deviceFs
             mounts := ⟨device, path, fsType⟩ :: st.mounts
             formatCalls := st.formatCalls + 1 }, .ok ())

/-- Modelled from the spec: `NodePublishVolume` bind-mounts the staging
path onto the target path.  It requires a staging mount at the staging
path, is idempotent per target path, and supports multiple target paths
for the same staged volume. -/
def NodePublishVolume (st : NodeState) (stagingPath target : String) :
    NodeState × Except CSIError Unit :=
  if st.mounts.any (fun m => m.path == stagingPath) then
    if st.publishes.contains (stagingPath, target) then (st, .ok ())
    else ({ st with publishes := (stagingPath, target) :: st.publishes }, .ok ())
  else (st, .error .internalErr)

/-- Modelled from the spec: `NodeUnpublishVolume` removes one target path
bind mount; an already-unmounted target is success.  Staging mounts are
untouched. -/
def NodeUnpublishVolume (st : NodeState) (target : String) :
    NodeState × Except CSIError Unit :=
  ({ st with publishes := st.publishes.filter (fun pr => !(pr.2 == target)) }, .ok ())

end NodeService

namespace NodeService

/-- C3: NodeStageVolume never reformats.  For every node state: (a) after
a successful stage, a repeated `NodeStageVolume` with identical device,
path and filesystem succeeds as a no-op on the unchanged state; (b) the
host format operation runs at most once across the two calls; (c) if the
staging path is already mounted with a different device or filesystem,
the call fails with a conflict and changes nothing. -/
theorem nodeStage_idempotent_never_reformats (st : NodeState)
    (device path fsType : String) :
    ((NodeStageVolume st device path fsType).2 = .ok () →
      NodeStageVolume (NodeStageVolume st device path fsType).1 device path fsType =
        ((NodeStageVolume st device path fsType).1, .ok ())) ∧
    (NodeStageVolume (NodeStageVolume st device path fsType).1 device path
        fsType).1.formatCalls ≤ st.formatCalls + 1 ∧
    (∀ m, st.mounts.find? (fun m0 => m0.path == path) = some m →
      m.device ≠ device ∨ m.fsType ≠ fsType →
      NodeStageVolume st device path fsType = (st, .error .aborted)) := by
  refine ⟨?_, ?_, ?_⟩
  · intro h
    cases hf : st.mounts.find? (fun m => m.path == path) with
    | some m =>
        by_cases hm : m.device = device ∧ m.fsType = fsType
        · simp [NodeStageVolume, hf, hm]
        · simp [NodeStageVolume, hf, hm] at h
    | none =>
        cases hd : st.deviceFs.find? (fun d => d.1 == device) with
        | some d =>
            by_cases hfs : d.2 = fsType
            · simp [NodeStageVolume, hf, hd, hfs, List.find?]
            · simp [NodeStageVolume, hf, hd, hfs] at h
        | none =>
            simp [NodeStageVolume, hf, hd, List.find?]
  · cases hf : st.mounts.find? (fun m => m.path == path) with
    | some m =>
        by_cases hm : m.device = device ∧ m.fsType = fsType
        · simp [NodeStageVolume, hf, hm]
        · simp [NodeStageVolume, hf, hm]
    | none =>
        cases hd : st.deviceFs.find? (fun d => d.1 == device) with
        | some d =>
            by_cases hfs : d.2 = fsType
            · simp [NodeStageVolume, hf, hd, hfs, List.find?]
            · simp [NodeStageVolume, hf, hd, hfs]
        | none =>
            simp [NodeStageVolume, hf, hd, List.find?]
  · intro m hf hne
    have hm : ¬(m.device = device ∧ m.fsType = fsType) := by
      rcases hne with h1 | h2
      · exact fun hc => h1 hc.1
      · exact fun hc => h2 hc.2
    simp [NodeStageVolume, hf, hm]

/-- Witness for C3: on an empty node state, the repeated stage of device
xvda at /stage with ext4 is a no-op with at most one format; on a state
where /stage carries device xvdb with xfs, the same stage is a conflict. -/
theorem nodeStage_idempotent_never_reformats_witness :
    (NodeStageVolume (NodeStageVolume ⟨[], [], [], 0⟩ "xvda" "/stage" "ext4").1
        "xvda" "/stage" "ext4" =
      ((NodeStageVolume ⟨[], [], [], 0⟩ "xvda" "/stage" "ext4").1, .ok ())) ∧
    (NodeStageVolume (NodeStageVolume ⟨[], [], [], 0⟩ "xvda" "/stage" "ext4").1
        "xvda" "/stage" "ext4").1.formatCalls ≤ (0 : Nat) + 1 ∧
    NodeStageVolume ⟨[("xvdb", "xfs")], [⟨"xvdb", "/stage", "xfs"⟩], [], 1⟩
        "xvda" "/stage" "ext4" =
      (⟨[("xvdb", "xfs")], [⟨"xvdb", "/stage", "xfs"⟩], [], 1⟩, .error .aborted) :=
  ⟨(nodeStage_idempotent_never_reformats ⟨[], [], [], 0⟩ "xvda" "/stage" "ext4").1
      rfl,
   (nodeStage_idempotent_never_reformats ⟨[], [], [], 0⟩ "xvda" "/stage" "ext4").2.1,
   (nodeStage_idempotent_never_reformats
      ⟨[("xvdb", "xfs")], [⟨"xvdb", "/stage", "xfs"⟩], [], 1⟩ "xvda" "/stage" "ext4").2.2
      ⟨"xvdb", "/stage", "xfs"⟩ (by decide) (Or.inl (by decide))⟩

lemma publish_publishes_cases (st : NodeState) (sp t : String) :
    (NodePublishVolume st sp t).1.publishes = st.publishes ∨
    (NodePublishVolume st sp t).1.publishes = (sp, t) :: st.publishes := by
  by_cases h : st.mounts.any (fun m => m.path == sp) = true
  · by_cases hc : (sp, t) ∈ st.publishes
    · exact Or.inl (by simp [NodePublishVolume, h, hc])
    · exact Or.inr (by simp [NodePublishVolume, h, hc])
  · exact Or.inl (by simp [NodePublishVolume, h])

lemma publish_mounts_eq (st : NodeState) (sp t : String) :
    (NodePublishVolume st sp t).1.mounts = st.mounts := by
  by_cases h : st.mounts.any (fun m => m.path == sp) = true
  · by_cases hc : (sp, t) ∈ st.publishes
    · simp [NodePublishVolume, h, hc]
    · simp [NodePublishVolume, h, hc]
  · simp [NodePublishVolume, h]

lemma publish_ok_of_staged (st : NodeState) (sp t : String)
    (h : st.mounts.any (fun m => m.path == sp) = true) :
    (NodePublishVolume st sp t).2 = .ok () := by
  by_cases hc : (sp, t) ∈ st.publishes
  · simp [NodePublishVolume, h, hc]
  · simp [NodePublishVolume, h, hc]

lemma publish_mem_self (st : NodeState) (sp t : String)
    (h : st.mounts.any (fun m => m.path == sp) = true) :
    (sp, t) ∈ (NodePublishVolume st sp t).1.publishes := by
  by_cases hc : (sp, t) ∈ st.publishes
  · simp [NodePublishVolume, h, hc]
  · simp [NodePublishVolume, h, hc]

lemma publish_mem_mono (st : NodeState) (sp t : String) (x : String × String)
    (hx : x ∈ st.publishes) : x ∈ (NodePublishVolume st sp t).1.publishes := by
  rcases publish_publishes_cases st sp t with hcase | hcase
  · rw [hcase]; exact hx
  · rw [hcase]; exact List.mem_cons_of_mem _ hx

/-- C7: publish mounts are independent.  For a staged volume, publishing
to two different target paths succeeds on both calls, and unpublishing
either target removes exactly that target while the other publish mount
and the staging mounts are unchanged. -/
theorem publish_mounts_independent (st : NodeState) (sp t1 t2 : String)
    (hstaged : st.mounts.any (fun m => m.path == sp) = true)
    (hne : t1 ≠ t2) :
    (NodePublishVolume st sp t1).2 = .ok () ∧
    (NodePublishVolume (NodePublishVolume st sp t1).1 sp t2).2 = .ok () ∧
    (let st2 := (NodePublishVolume (NodePublishVolume st sp t1).1 sp t2).1
     ((sp, t2) ∈ (NodeUnpublishVolume st2 t1).1.publishes ∧
       (∀ x, (x, t1) ∉ (NodeUnpublishVolume st2 t1).1.publishes) ∧
       (NodeUnpublishVolume st2 t1).1.mounts = st2.mounts) ∧
     ((sp, t1) ∈ (NodeUnpublishVolume st2 t2).1.publishes ∧
       (∀ x, (x, t2) ∉ (NodeUnpublishVolume st2 t2).1.publishes) ∧
       (NodeUnpublishVolume st2 t2).1.mounts = st2.mounts)) := by
  have h1mounts : (NodePublishVolume st sp t1).1.mounts = st.mounts :=
    publish_mounts_eq st sp t1
  have hstaged1 :
      (NodePublishVolume st sp t1).1.mounts.any (fun m => m.path == sp) = true := by
    rw [h1mounts]; exact hstaged
  refine ⟨publish_ok_of_staged st sp t1 hstaged, publish_ok_of_staged _ sp t2 hstaged1, ?_⟩
  have hmem1 : (sp, t1) ∈
      (NodePublishVolume (NodePublishVolume st sp t1).1 sp t2).1.publishes :=
    publish_mem_mono _ sp t2 _ (publish_mem_self st sp t1 hstaged)
  have hmem2 : (sp, t2) ∈
      (NodePublishVolume (NodePublishVolume st sp t1).1 sp t2).1.publishes :=
    publish_mem_self _ sp t2 hstaged1
  refine ⟨⟨?_, ?_, rfl⟩, ⟨?_, ?_, rfl⟩⟩
  · exact List.mem_filter.mpr ⟨hmem2, by simp [hne.symm]⟩
  · intro x hx
    have := (List.mem_filter.mp hx).2
    simp at this
  · exact List.mem_filter.mpr ⟨hmem1, by simp [hne]⟩
  · intro x hx
    have := (List.mem_filter.mp hx).2
    simp at this

/-- Witness for C7: a staged volume at /stage published to /target-a and
/target-b; each unpublish removes only its own target. -/
theorem publish_mounts_independent_witness :
    (NodePublishVolume ⟨[("xvda", "ext4")], [⟨"xvda", "/stage", "ext4"⟩], [], 1⟩
        "/stage" "/target-a").2 = .ok () ∧
    (NodePublishVolume
        (NodePublishVolume ⟨[("xvda", "ext4")], [⟨"xvda", "/stage", "ext4"⟩], [], 1⟩
          "/stage" "/target-a").1 "/stage" "/target-b").2 = .ok () ∧
    (let st2 := (NodePublishVolume
        (NodePublishVolume ⟨[("xvda", "ext4")], [⟨"xvda", "/stage", "ext4"⟩], [], 1⟩
          "/stage" "/target-a").1 "/stage" "/target-b").1
     (("/stage", "/target-b") ∈ (NodeUnpublishVolume st2 "/target-a").1.publishes ∧
       (∀ x, (x, "/target-a") ∉ (NodeUnpublishVolume st2 "/target-a").1.publishes) ∧
       (NodeUnpublishVolume st2 "/target-a").1.mounts = st2.mounts) ∧
     (("/stage", "/target-a") ∈ (NodeUnpublishVolume st2 "/target-b").1.publishes ∧
       (∀ x, (x, "/target-b") ∉ (NodeUnpublishVolume st2 "/target-b").1.publishes) ∧
       (NodeUnpublishVolume st2 "/target-b").1.mounts = st2.mounts)) :=
  publish_mounts_independent ⟨[("xvda", "ext4")], [⟨"xvda", "/stage", "ext4"⟩], [], 1⟩
    "/stage" "/target-a" "/target-b" (by decide) (by decide)

end NodeService

namespace cloud

/-- A dynamically typed Go interface value, as stored in the slice of
recorded mock return values (`pkg/cloud/mock_metadata.go`). -/
inductive GoValue
  | str (s : String)
  | boolean (b : Bool)
  | goError (msg : String)
  | nilValue
  | other (tag : String)
deriving DecidableEq, Repr

/-- Go comma-ok string type assertion `ret0, _ := x.(string)`: the string
when the dynamic type is string, the zero value "" otherwise. -/
def assertString : GoValue → String
  | .str s => s
  | _ => ""

/-- Go comma-ok error type assertion `ret1, _ := x.(error)`: the error
when the dynamic type is error, the nil error otherwise. -/
def assertError : GoValue → Option String
  | .goError m => some m
  | _ => none

/-- The gomock controller, abstracted to what the mock methods consume:
`call` yields the slice of recorded return values for a method name and
its argument list (`m.ctrl.Call(m, name, args...)`). -/
structure Controller where
  call : String → List GoValue → List GoValue

/-- Go slice indexing `ret[i]`; `none` models the out-of-range panic. -/
def goIndex (ret : List GoValue) (i : Nat) : Option GoValue :=
  ret.get? i

/-- `MockMetadataServiceMockRecorder` from the source: holds a pointer to
the mock it records for, here the mock's heap address. -/
structure MockMetadataServiceMockRecorder where
  mock : Nat
deriving DecidableEq, Repr

/-- `MockMetadataService` from the source: the gomock controller and the
recorder pointer (`none` models a nil pointer); `addr` is the struct's own
heap address, standing in for the Go pointer identity. -/
structure MockMetadataService where
  addr : Nat
  ctrl : Controller
  recorder : Option MockMetadataServiceMockRecorder

/-- `NewMockMetadataService` from the source: allocates the mock, then
sets its recorder to a new recorder pointing back at the mock. -/
def NewMockMetadataService (ctrl : Controller) (addr : Nat) : MockMetadataService :=
  { addr := addr, ctrl := ctrl, recorder := some { mock := addr } }

/-- `EXPECT` from the source: returns the stored recorder; the mock itself
is not mutated, which the state component records. -/
def MockMetadataService.EXPECT (m : MockMetadataService) :
    MockMetadataService × Option MockMetadataServiceMockRecorder :=
  (m, m.recorder)

/-- `GetAvailabilityZone` from the source: `ret := m.ctrl.Call(...)`,
then `ret0, _ := ret[0].(string)`. -/
def MockMetadataService.GetAvailabilityZone (m : MockMetadataService) : Option String :=
  (goIndex (m.ctrl.call "GetAvailabilityZone" []) 0).map assertString

/-- `GetInstanceID` from the source. -/
def MockMetadataService.GetInstanceID (m : MockMetadataService) : Option String :=
  (goIndex (m.ctrl.call "GetInstanceID" []) 0).map assertString

/-- `GetInstanceType` from the source. -/
def MockMetadataService.GetInstanceType (m : MockMetadataService) : Option String :=
  (goIndex (m.ctrl.call "GetInstanceType" []) 0).map assertString

/-- `GetRegion` from the source. -/
def MockMetadataService.GetRegion (m : MockMetadataService) : Option String :=
  (goIndex (m.ctrl.call "GetRegion" []) 0).map assertString

/-- `MockEC2MetadataMockRecorder` from the source. -/
structure MockEC2MetadataMockRecorder where
  mock : Nat
deriving DecidableEq, Repr

/-- `MockEC2Metadata` from the source. -/
structure MockEC2Metadata where
  addr : Nat
  ctrl : Controller
  recorder : Option MockEC2MetadataMockRecorder

/-- `NewMockEC2Metadata` from the source. -/
def NewMockEC2Metadata (ctrl : Controller) (addr : Nat) : MockEC2Metadata :=
  { addr := addr, ctrl := ctrl, recorder := some { mock := addr } }

/-- `EXPECT` on `MockEC2Metadata` from the source. -/
def MockEC2Metadata.EXPECT (m : MockEC2Metadata) :
    MockEC2Metadata × Option MockEC2MetadataMockRecorder :=
  (m, m.recorder)

/-- `GetMetadata` from the source: `ret0, _ := ret[0].(string)` and
`ret1, _ := ret[1].(error)`. -/
def MockEC2Metadata.GetMetadata (m : MockEC2Metadata) (arg0 : String) :
    Option (String × Option String) :=
  match goIndex (m.ctrl.call "GetMetadata" [.str arg0]) 0,
        goIndex (m.ctrl.call "GetMetadata" [.str arg0]) 1 with
  | some v0, some v1 => some (assertString v0, assertError v1)
  | _, _ => none

end cloud

namespace cloud

/-- C9: mock metadata getters are total.  Whenever the controller has a
recorded (nonempty) return slice for a method, the corresponding getter
returns exactly the comma-ok assertion of the first recorded value: the
value itself when it is a string and the zero value "" otherwise, never a
panic; and the assertion function indeed maps strings to themselves and
every non-string to "". -/
theorem mock_getters_total (c : Controller) (addr : Nat)
    (v1 v2 v3 v4 : GoValue) (r1 r2 r3 r4 : List GoValue)
    (h1 : c.call "GetRegion" [] = v1 :: r1)
    (h2 : c.call "GetAvailabilityZone" [] = v2 :: r2)
    (h3 : c.call "GetInstanceID" [] = v3 :: r3)
    (h4 : c.call "GetInstanceType" [] = v4 :: r4) :
    (NewMockMetadataService c addr).GetRegion = some (assertString v1) ∧
    (NewMockMetadataService c addr).GetAvailabilityZone = some (assertString v2) ∧
    (NewMockMetadataService c addr).GetInstanceID = some (assertString v3) ∧
    (NewMockMetadataService c addr).GetInstanceType = some (assertString v4) ∧
    (∀ s, assertString (.str s) = s) ∧
    (∀ v, (∀ s, v ≠ .str s) → assertString v = "") := by
  refine ⟨?_, ?_, ?_, ?_, fun s => rfl, ?_⟩
  · simp [MockMetadataService.GetRegion, NewMockMetadataService, goIndex, h1]
  · simp [MockMetadataService.GetAvailabilityZone, NewMockMetadataService, goIndex, h2]
  · simp [MockMetadataService.GetInstanceID, NewMockMetadataService, goIndex, h3]
  · simp [MockMetadataService.GetInstanceType, NewMockMetadataService, goIndex, h4]
  · intro v hv
    cases v with
    | str s => exact absurd rfl (hv s)
    | boolean b => rfl
    | goError m => rfl
    | nilValue => rfl
    | other t => rfl

/-- A concrete recorded-returns table for the C9 witness: three string
returns and one mis-typed (boolean) return. -/
def witnessController : Controller :=
  ⟨fun name _args =>
    if name = "GetRegion" then [.str "us-east-1"]
    else if name = "GetAvailabilityZone" then [.str "us-east-1a"]
    else if name = "GetInstanceID" then [.str "i-1234567890abcdef0"]
    else [.boolean true]⟩

/-- Witness for C9 on the concrete table: the three string returns come
back verbatim and the mis-typed boolean return comes back as "". -/
theorem mock_getters_total_witness :
    (NewMockMetadataService witnessController 0).GetRegion =
      some (assertString (.str "us-east-1")) ∧
    (NewMockMetadataService witnessController 0).GetAvailabilityZone =
      some (assertString (.str "us-east-1a")) ∧
    (NewMockMetadataService witnessController 0).GetInstanceID =
      some (assertString (.str "i-1234567890abcdef0")) ∧
    (NewMockMetadataService witnessController 0).GetInstanceType =
      some (assertString (.boolean true)) ∧
    (∀ s, assertString (.str s) = s) ∧
    (∀ v, (∀ s, v ≠ .str s) → assertString v = "") :=
  mock_getters_total witnessController 0
    (.str "us-east-1") (.str "us-east-1a") (.str "i-1234567890abcdef0") (.boolean true)
    [] [] [] [] (by decide) (by decide) (by decide) (by decide)

/-- C10: mock/recorder round trip.  A mock created by
`NewMockMetadataService` (resp. `NewMockEC2Metadata`) has a non-nil
recorder whose mock field is the mock itself (its address); `EXPECT`
returns that recorder without mutating the mock, so repeated `EXPECT`
calls return the identical recorder. -/
theorem expect_recorder_roundtrip (c : Controller) (addr : Nat) :
    ((NewMockMetadataService c addr).EXPECT).2 ≠ none ∧
    ((NewMockMetadataService c addr).EXPECT).2 = some ⟨addr⟩ ∧
    ((NewMockMetadataService c addr).EXPECT).1 = NewMockMetadataService c addr ∧
    (((NewMockMetadataService c addr).EXPECT).1.EXPECT).2 =
      ((NewMockMetadataService c addr).EXPECT).2 ∧
    ((NewMockEC2Metadata c addr).EXPECT).2 ≠ none ∧
    ((NewMockEC2Metadata c addr).EXPECT).2 = some ⟨addr⟩ ∧
    ((NewMockEC2Metadata c addr).EXPECT).1 = NewMockEC2Metadata c addr ∧
    (((NewMockEC2Metadata c addr).EXPECT).1.EXPECT).2 =
      ((NewMockEC2Metadata c addr).EXPECT).2 := by
  refine ⟨?_, rfl, rfl, rfl, ?_, rfl, rfl, rfl⟩
  · simp [NewMockMetadataService, MockMetadataService.EXPECT]
  · simp [NewMockEC2Metadata, MockEC2Metadata.EXPECT]

end cloud
